import Mathlib

/-!
Shallow embedding of the Google Photos orphan-photo maintenance script
(source: notInAlbumn-extended.py).

The remote Photos service is modelled as a record of pure response
functions: each paginated listing maps a page token to one response page,
single-item lookups and mutations return an exception-or-value result.
Python dictionaries with possibly-missing keys become records with
Option-valued fields; a missing-key access that would raise a KeyError is
modelled by an Option-valued computation returning none.  The unbounded
`while True` pagination loops take an explicit fuel argument and return
none when the fuel runs out.
-/

namespace GPhotos

/-- A media item as returned by the service: a dictionary that may or may
not carry the keys id, filename and mimeType. -/
structure MediaItem where
  id? : Option String
  filename? : Option String
  mimeType? : Option String
deriving DecidableEq

/-- An album record; the script accesses the id and title keys of albums
unguarded, so they are modelled as required fields. -/
structure Album where
  id : String
  title : String
deriving DecidableEq

/-- Response of mediaItems().list and mediaItems().search: a page of media
items plus an optional continuation token. -/
structure MediaPage where
  mediaItems : List MediaItem
  nextPageToken : Option String
deriving DecidableEq

/-- Response of albums().list: a page of albums plus an optional
continuation token. -/
structure AlbumsPage where
  albums : List Album
  nextPageToken : Option String
deriving DecidableEq

/-- The remote service, as a record of pure request-to-response functions.
`albumsList` is the albums().list request used by get_album_item_ids;
`albumsListEx` is the same request with excludeNonAppCreatedData=False as
issued by find_album.  `mediaGet` models mediaItems().get: an exception
(error) or a response whose Python truthiness is captured by Option
(none = falsy/empty response).  `batchAdd` models
albums().batchAddMediaItems, `albumsGet` models albums().get. -/
structure Service where
  mediaList : Option String → MediaPage
  albumsList : Option String → AlbumsPage
  albumsListEx : Option String → AlbumsPage
  mediaSearch : String → Option String → MediaPage
  mediaGet : String → Except String (Option MediaItem)
  batchAdd : String → List String → Except String Unit
  albumsGet : String → Except String Album

/-- Python truthiness of a page token: `if not page_token: break` treats
both an absent token and the empty string as end of pagination. -/
def tokenFalsy : Option String → Bool
  | none => true
  | some s => s.isEmpty

/-- Python str.startswith, as a structural prefix test on the character
sequences of the two strings. -/
def pyStartsWith (s pre : String) : Bool :=
  pre.data.isPrefixOf s.data

/-- The per-page filter of get_all_photos (line 51 of the source):
`'mimeType' in item and item['mimeType'].startswith("image/") and
'filename' in item`.  Note that presence of an id is NOT checked. -/
def photoFilter (item : MediaItem) : Bool :=
  match item.mimeType? with
  | some m => pyStartsWith m "image/" && item.filename?.isSome
  | none => false

/-- The pagination loop of get_all_photos: fetch a page, filter it,
append, continue while the continuation token is truthy. -/
def get_all_photos_loop (mediaList : Option String → MediaPage) :
    Nat → Option String → List MediaItem → Option (List MediaItem)
  | 0, _, _ => none
  | fuel+1, page_token, all_photos =>
    let results := mediaList page_token
    let media_items := results.mediaItems
    let photos := media_items.filter photoFilter
    let all_photos2 := all_photos ++ photos
    let page_token2 := results.nextPageToken
    if tokenFalsy page_token2 then some all_photos2
    else get_all_photos_loop mediaList fuel page_token2 all_photos2

/-- get_all_photos: retrieve all photos in the library using pagination. -/
def get_all_photos (svc : Service) (fuel : Nat) : Option (List MediaItem) :=
  get_all_photos_loop svc.mediaList fuel none []

/-- Inner loop of get_album_item_ids: page through one album's member-item
search, accumulating every item id present (items lacking an id are
skipped). -/
def album_items_loop (search : String → Option String → MediaPage)
    (album_id : String) :
    Nat → Option String → Finset String → Option (Finset String)
  | 0, _, _ => none
  | fuel+1, album_page_token, album_item_ids =>
    let album_items := search album_id album_page_token
    let items := album_items.mediaItems
    let acc := album_item_ids ∪ (items.filterMap MediaItem.id?).toFinset
    let album_page_token2 := album_items.nextPageToken
    if tokenFalsy album_page_token2 then some acc
    else album_items_loop search album_id fuel album_page_token2 acc

/-- The `for album in albums` loop of get_album_item_ids: collect the
member ids of each album in turn into the accumulator. -/
def albums_fold (search : String → Option String → MediaPage)
    (innerFuel : Nat) : List Album → Finset String → Option (Finset String)
  | [], acc => some acc
  | album :: rest, acc =>
    match album_items_loop search album.id innerFuel none acc with
    | none => none
    | some acc2 => albums_fold search innerFuel rest acc2

/-- Outer loop of get_album_item_ids.  Faithful to the source: the albums
listing request for the current page token is executed twice, once to read
the albums (line 70) and once, after processing them, to read the
continuation token (line 93). -/
def get_album_item_ids_loop (alist : Option String → AlbumsPage)
    (search : String → Option String → MediaPage) (innerFuel : Nat) :
    Nat → Option String → Finset String → Option (Finset String)
  | 0, _, _ => none
  | fuel+1, page_token, acc =>
    let albums := (alist page_token).albums
    match albums_fold search innerFuel albums acc with
    | none => none
    | some acc2 =>
      let page_token2 := (alist page_token).nextPageToken
      if tokenFalsy page_token2 then some acc2
      else get_album_item_ids_loop alist search innerFuel fuel page_token2 acc2

/-- get_album_item_ids: the ids of all media items in every album. -/
def get_album_item_ids (svc : Service) (innerFuel outerFuel : Nat) :
    Option (Finset String) :=
  get_album_item_ids_loop svc.albumsList svc.mediaSearch innerFuel outerFuel none ∅

/-- The comprehension `[photo for photo in all_photos if photo['id'] not in
album_item_ids]` (line 108/123): the unguarded dictionary access
photo['id'] raises (modelled as none) when a photo lacks an id. -/
def filter_no_album (album_item_ids : Finset String) :
    List MediaItem → Option (List MediaItem)
  | [] => some []
  | photo :: rest =>
    match photo.id? with
    | none => none
    | some i =>
      match filter_no_album album_item_ids rest with
      | none => none
      | some tail =>
        some (if i ∈ album_item_ids then tail else photo :: tail)

/-- Python list slicing `l[:n]` for an integer bound n: the first n
elements when n is nonnegative, all but the last |n| elements when n is
negative. -/
def pySliceTo {α : Type} (l : List α) (n : Int) : List α :=
  if 0 ≤ n then l.take n.toNat else l.take (l.length - (-n).toNat)

/-- get_items_no_album: list up to batch_size photos not in any album. -/
def get_items_no_album (svc : Service) (fuelP innerFuel outerFuel : Nat)
    (batch_size : Int) : Option (List MediaItem) :=
  match get_all_photos svc fuelP with
  | none => none
  | some all_photos =>
    match get_album_item_ids svc innerFuel outerFuel with
    | none => none
    | some album_item_ids =>
      match filter_no_album album_item_ids all_photos with
      | none => none
      | some no_album_photos => some (pySliceTo no_album_photos batch_size)

/-- The diagnostic lines printed by the validation and move phases of
get_and_move_items_no_album, one constructor per print statement. -/
inductive MoveEvent where
  | validOk : String → String → MoveEvent
  | notFound : String → MoveEvent
  | invalidItem : String → String → MoveEvent
  | moved : String → MoveEvent
  | moveError : String → String → MoveEvent
  | noValidIds : MoveEvent
  | noPhotos : MoveEvent
deriving DecidableEq

/-- One iteration of the validation loop (lines 139-149): look the id up;
a truthy response validates it, a falsy response or a raised error drops
it with a diagnostic, never aborting the loop. -/
def validate_one (mediaGet : String → Except String (Option MediaItem))
    (media_id : String) : Option String × MoveEvent :=
  match mediaGet media_id with
  | .ok (some media_item) =>
    (some media_id, .validOk media_id (media_item.filename?.getD "Unknown"))
  | .ok none => (none, .notFound media_id)
  | .error e => (none, .invalidItem media_id e)

/-- The full validation loop: returns the valid ids in order together with
the diagnostic log, one entry per candidate. -/
def validate_ids (mediaGet : String → Except String (Option MediaItem)) :
    List String → List String × List MoveEvent
  | [] => ([], [])
  | media_id :: rest =>
    let r := validate_one mediaGet media_id
    let vr := validate_ids mediaGet rest
    ((match r.1 with | some v => v :: vr.1 | none => vr.1), r.2 :: vr.2)

/-- One iteration of the move loop (lines 153-158): a single-id batch-add
call whose failure is caught and logged. -/
def move_one (batchAdd : String → List String → Except String Unit)
    (album_id valid_id : String) : MoveEvent :=
  match batchAdd album_id [valid_id] with
  | .ok _ => .moved valid_id
  | .error e => .moveError valid_id e

/-- The move loop: one independent batch-add attempt per valid id. -/
def move_ids (batchAdd : String → List String → Except String Unit)
    (album_id : String) (valid_ids : List String) : List MoveEvent :=
  valid_ids.map (move_one batchAdd album_id)

/-- The comprehension `[photo['id'] for photo in photos_to_move]`
(line 135): unguarded id accesses, raising (none) on a missing id. -/
def ids_of : List MediaItem → Option (List String)
  | [] => some []
  | p :: rest =>
    match p.id?, ids_of rest with
    | some i, some tail => some (i :: tail)
    | _, _ => none

/-- get_and_move_items_no_album: compute the first batch of orphan photos,
validate each id by direct lookup, move each valid id with an individual
batch-add call, and return the candidate batch together with the
diagnostic log. -/
def get_and_move_items_no_album (svc : Service) (album_id : String)
    (fuelP innerFuel outerFuel : Nat) (batch_size : Int) :
    Option (List MediaItem × List MoveEvent) :=
  match get_all_photos svc fuelP with
  | none => none
  | some all_photos =>
    match get_album_item_ids svc innerFuel outerFuel with
    | none => none
    | some album_item_ids =>
      match filter_no_album album_item_ids all_photos with
      | none => none
      | some no_album_photos =>
        let photos_to_move := pySliceTo no_album_photos batch_size
        if photos_to_move.isEmpty then
          some (photos_to_move, [MoveEvent.noPhotos])
        else
          match ids_of photos_to_move with
          | none => none
          | some media_item_ids =>
            let v := validate_ids svc.mediaGet media_item_ids
            let move_log :=
              if v.1.isEmpty then [MoveEvent.noValidIds]
              else move_ids svc.batchAdd album_id v.1
            some (photos_to_move, v.2 ++ move_log)

/-- The pagination loop of find_album: scan each page for the first album
whose title equals the requested name (exact string equality), returning
some (some album) on a hit, some none when the pages are exhausted. -/
def find_album_loop (alistEx : Option String → AlbumsPage)
    (album_name : String) : Nat → Option String → Option (Option Album)
  | 0, _ => none
  | fuel+1, next_page_token =>
    let response := alistEx next_page_token
    match response.albums.find? (fun album => album.title == album_name) with
    | some album => some (some album)
    | none =>
      let t := response.nextPageToken
      if tokenFalsy t then some none
      else find_album_loop alistEx album_name fuel t

/-- find_album: first album with the exact requested title, in page
order. -/
def find_album (svc : Service) (album_name : String) (fuel : Nat) :
    Option (Option Album) :=
  find_album_loop svc.albumsListEx album_name fuel none

/-- get_album_by_id: direct lookup, catching any raised error and
returning None in that case. -/
def get_album_by_id (svc : Service) (album_id : String) : Option Album :=
  match svc.albumsGet album_id with
  | .ok album => some album
  | .error _ => none

/-! ### Specification-side page chains

`pageChain` flattens a token-driven pagination into the list of all items
it traverses: the items of each page, following continuation tokens until
a falsy one, with fuel.  It is the reference description the loop
implementations are proved against. -/

/-- Flattened contents of a token-driven pagination, with fuel. -/
def pageChain {α β : Type} (items : α → List β) (next : α → Option String)
    (f : Option String → α) : Nat → Option String → Option (List β)
  | 0, _ => none
  | fuel+1, tok =>
    let r := f tok
    if tokenFalsy (next r) then some (items r)
    else
      match pageChain items next f fuel (next r) with
      | none => none
      | some rest => some (items r ++ rest)

/-- All media items traversed by the photo listing, unfiltered. -/
def mediaChain (mediaList : Option String → MediaPage) (fuel : Nat) :
    Option (List MediaItem) :=
  pageChain MediaPage.mediaItems MediaPage.nextPageToken mediaList fuel none

/-- All albums traversed by an albums listing. -/
def albumsChain (alist : Option String → AlbumsPage) (fuel : Nat) :
    Option (List Album) :=
  pageChain AlbumsPage.albums AlbumsPage.nextPageToken alist fuel none

/-- All member items traversed by one album's member-item search. -/
def searchChain (search : String → Option String → MediaPage)
    (album_id : String) (fuel : Nat) : Option (List MediaItem) :=
  pageChain MediaPage.mediaItems MediaPage.nextPageToken (search album_id) fuel none

/-- The member-id set contributed by one album: the ids carried by the
items of its search chain (empty when the chain runs out of fuel). -/
def albumIdsD (search : String → Option String → MediaPage)
    (innerFuel : Nat) (album : Album) : Finset String :=
  (((searchChain search album.id innerFuel).getD []).filterMap MediaItem.id?).toFinset

/-- Union of the member-id sets of a list of albums. -/
def unionIds (search : String → Option String → MediaPage)
    (innerFuel : Nat) (albums : List Album) : Finset String :=
  albums.foldr (fun a t => albumIdsD search innerFuel a ∪ t) ∅

/-- The Boolean orphan test used once every photo is known to carry an
id: the photo's id is not in the membership set. -/
def notInAlbum (album_item_ids : Finset String) (photo : MediaItem) : Bool :=
  match photo.id? with
  | some i => decide (i ∉ album_item_ids)
  | none => true

/-- The Boolean validation outcome of one candidate id: true exactly when
the lookup returns without error and with a truthy response. -/
def validPred (mediaGet : String → Except String (Option MediaItem))
    (media_id : String) : Bool :=
  match mediaGet media_id with
  | .ok (some _) => true
  | _ => false

/-! ### Call-counted albums listing (for the double-fetch analysis)

get_album_item_ids issues the albums().list request twice per outer page
with the same token.  To reason about a service whose two responses may
differ, the albums listing is indexed by a call counter. -/

/-- A service whose albums listing response may depend on how many
albums().list calls were made before, in addition to the page token. -/
structure CountedService where
  albumsListAt : Nat → Option String → AlbumsPage
  mediaSearch : String → Option String → MediaPage

/-- The outer loop of get_album_item_ids over a call-counted service:
call k reads the albums, call k+1 re-issues the same request to read the
continuation token. -/
def get_album_item_ids_counted_loop (csvc : CountedService) (innerFuel : Nat) :
    Nat → Nat → Option String → Finset String → Option (Finset String)
  | 0, _, _, _ => none
  | fuel+1, k, page_token, acc =>
    let albums := (csvc.albumsListAt k page_token).albums
    match albums_fold csvc.mediaSearch innerFuel albums acc with
    | none => none
    | some acc2 =>
      let page_token2 := (csvc.albumsListAt (k+1) page_token).nextPageToken
      if tokenFalsy page_token2 then some acc2
      else get_album_item_ids_counted_loop csvc innerFuel fuel (k+2) page_token2 acc2

/-- A single-fetch variant of the same collector: one albums().list call
per outer page, reading both the albums and the continuation token from
that one response. -/
def get_album_item_ids_single_loop (csvc : CountedService) (innerFuel : Nat) :
    Nat → Nat → Option String → Finset String → Option (Finset String)
  | 0, _, _, _ => none
  | fuel+1, k, page_token, acc =>
    let resp := csvc.albumsListAt k page_token
    match albums_fold csvc.mediaSearch innerFuel resp.albums acc with
    | none => none
    | some acc2 =>
      if tokenFalsy resp.nextPageToken then some acc2
      else get_album_item_ids_single_loop csvc innerFuel fuel (k+1) resp.nextPageToken acc2

/-! ### Concrete library states used as counterexamples and witnesses -/

/-- A photo that carries mimeType and filename but no id. -/
def itemNoId : MediaItem := ⟨none, some "a.jpg", some "image/jpeg"⟩

def p1 : MediaItem := ⟨some "id1", some "p1.jpg", some "image/jpeg"⟩

def p2 : MediaItem := ⟨some "id2", some "p2.jpg", some "image/jpeg"⟩

def p3 : MediaItem := ⟨some "id3", some "p3.jpg", some "image/jpeg"⟩

def p4 : MediaItem := ⟨some "id4", some "p4.jpg", some "image/png"⟩

/-- The empty library. -/
def baseSvc : Service where
  mediaList := fun _ => ⟨[], none⟩
  albumsList := fun _ => ⟨[], none⟩
  albumsListEx := fun _ => ⟨[], none⟩
  mediaSearch := fun _ _ => ⟨[], none⟩
  mediaGet := fun _ => Except.error "not found"
  batchAdd := fun _ _ => Except.ok ()
  albumsGet := fun _ => Except.error "not found"

/-- A library whose single photo page contains only the id-less item. -/
def svcNoId : Service := { baseSvc with mediaList := fun _ => ⟨[itemNoId], none⟩ }

/-- An item lacking a filename. -/
def itemNoName : MediaItem := ⟨some "idX", none, some "image/jpeg"⟩

/-- A video item (mime type not image-prefixed). -/
def itemVideo : MediaItem := ⟨some "idV", some "v.mp4", some "video/mp4"⟩

/-- A photo page mixing a proper photo with two items failing the
filter. -/
def svcMixed : Service :=
  { baseSvc with mediaList := fun _ => ⟨[p1, itemNoName, itemVideo], none⟩ }

/-- A library with four photos, one album holding p2 (so the orphans are
p1, p3, p4), a lookup that fails for id3, and a batch-add that fails for
id1. -/
def svcOrphans : Service :=
  { baseSvc with
    mediaList := fun _ => ⟨[p1, p2, p3, p4], none⟩
    albumsList := fun _ => ⟨[⟨"a1", "Holidays"⟩], none⟩
    mediaSearch := fun _ _ => ⟨[p2], none⟩
    mediaGet := fun i =>
      if i = "id1" then Except.ok (some p1)
      else if i = "id4" then Except.ok (some p4)
      else Except.error "boom"
    batchAdd := fun _ ids => if ids = ["id1"] then Except.error "denied" else Except.ok () }

/-- svcOrphans with a different lookup and batch-add behaviour but the
same listings. -/
def svcOrphans2 : Service :=
  { svcOrphans with
    mediaGet := fun _ => Except.error "offline"
    batchAdd := fun _ _ => Except.error "offline" }

/-- Two albums titled Vacation spread over two pages. -/
def svcFind : Service :=
  { baseSvc with
    albumsListEx := fun tok =>
      match tok with
      | none => ⟨[⟨"b1", "Trip"⟩, ⟨"v1", "Vacation"⟩], some "t2"⟩
      | some _ => ⟨[⟨"v2", "Vacation"⟩], none⟩ }

/-- A call-counted albums listing whose first and second responses to the
initial request disagree: the first call reports album a1 and a
continuation token, the second call reports no continuation.  The
double-fetch collector therefore stops after a1, skipping the page that
holds a2. -/
def divergeSvc : CountedService where
  albumsListAt := fun k tok =>
    match tok with
    | none => if k = 0 then ⟨[⟨"a1", "Album1"⟩], some "t"⟩ else ⟨[⟨"a1", "Album1"⟩], none⟩
    | some _ => ⟨[⟨"a2", "Album2"⟩], none⟩
  mediaSearch := fun aid _ =>
    if aid = "a1" then ⟨[⟨some "x1", some "f1", some "image/jpeg"⟩], none⟩
    else ⟨[⟨some "x2", some "f2", some "image/jpeg"⟩], none⟩

/-- A call-counted service whose listing ignores the call counter. -/
def constCSvc : CountedService where
  albumsListAt := fun _ _ => ⟨[], none⟩
  mediaSearch := fun _ _ => ⟨[], none⟩

/-! ## Loop characterizations -/

/-- The photo pagination loop appends to its accumulator the filtered
contents of the page chain it traverses. -/
theorem get_all_photos_loop_eq (f : Option String → MediaPage) :
    ∀ (fuel : Nat) (tok : Option String) (acc : List MediaItem),
    get_all_photos_loop f fuel tok acc =
      (pageChain MediaPage.mediaItems MediaPage.nextPageToken f fuel tok).map
        (fun raw => acc ++ raw.filter photoFilter)
  | 0, _, _ => rfl
  | fuel+1, tok, acc => by
    simp only [get_all_photos_loop, pageChain]
    by_cases h : tokenFalsy (f tok).nextPageToken
    · simp [h]
    · simp only [h, Bool.false_eq_true, if_false]
      rw [get_all_photos_loop_eq f fuel]
      cases pageChain MediaPage.mediaItems MediaPage.nextPageToken f fuel
          (f tok).nextPageToken with
      | none => rfl
      | some rest => simp [List.filter_append]

/-- get_all_photos filters the full media chain with photoFilter. -/
theorem get_all_photos_eq (svc : Service) (fuel : Nat) :
    get_all_photos svc fuel =
      (mediaChain svc.mediaList fuel).map (fun raw => raw.filter photoFilter) := by
  rw [get_all_photos, mediaChain, get_all_photos_loop_eq]
  cases pageChain MediaPage.mediaItems MediaPage.nextPageToken svc.mediaList fuel none <;> rfl

/-- The inner album loop unions into its accumulator the ids found along
the album's search chain. -/
theorem album_items_loop_eq (search : String → Option String → MediaPage)
    (album_id : String) :
    ∀ (fuel : Nat) (tok : Option String) (acc : Finset String),
    album_items_loop search album_id fuel tok acc =
      (pageChain MediaPage.mediaItems MediaPage.nextPageToken (search album_id) fuel tok).map
        (fun l => acc ∪ (l.filterMap MediaItem.id?).toFinset)
  | 0, _, _ => rfl
  | fuel+1, tok, acc => by
    simp only [album_items_loop, pageChain]
    by_cases h : tokenFalsy (search album_id tok).nextPageToken
    · simp [h]
    · simp only [h, Bool.false_eq_true, if_false]
      rw [album_items_loop_eq search album_id fuel]
      cases pageChain MediaPage.mediaItems MediaPage.nextPageToken (search album_id) fuel
          (search album_id tok).nextPageToken with
      | none => rfl
      | some rest => simp [List.filterMap_append, Finset.union_assoc]

/-- Folding a union-valued function starting from s is the same as
folding from the empty set and uniting with s at the end. -/
theorem foldr_union_init (g : Album → Finset String) :
    ∀ (l : List Album) (s : Finset String),
    l.foldr (fun a t => g a ∪ t) s = l.foldr (fun a t => g a ∪ t) ∅ ∪ s
  | [], s => by simp
  | a :: rest, s => by
    simp only [List.foldr_cons]
    rw [foldr_union_init g rest s, Finset.union_assoc]

/-- unionIds distributes over list append. -/
theorem unionIds_append (search : String → Option String → MediaPage)
    (innerFuel : Nat) (l1 l2 : List Album) :
    unionIds search innerFuel (l1 ++ l2) =
      unionIds search innerFuel l1 ∪ unionIds search innerFuel l2 := by
  simp only [unionIds, List.foldr_append]
  rw [foldr_union_init]

/-- The per-album fold succeeds and collects the per-album id sets,
provided every album's search chain terminates within the inner fuel. -/
theorem albums_fold_eq (search : String → Option String → MediaPage)
    (innerFuel : Nat) :
    ∀ (albums : List Album) (acc : Finset String),
    (∀ a ∈ albums, (searchChain search a.id innerFuel).isSome = true) →
    albums_fold search innerFuel albums acc =
      some (acc ∪ unionIds search innerFuel albums)
  | [], acc, _ => by simp [albums_fold, unionIds]
  | album :: rest, acc, h => by
    have hhead := h album (List.mem_cons_self album rest)
    obtain ⟨l, hl⟩ := Option.isSome_iff_exists.mp hhead
    simp only [albums_fold]
    rw [album_items_loop_eq]
    have hl2 : pageChain MediaPage.mediaItems MediaPage.nextPageToken
        (search album.id) innerFuel none = some l := hl
    rw [hl2]
    simp only [Option.map_some']
    rw [albums_fold_eq search innerFuel rest (acc ∪ (l.filterMap MediaItem.id?).toFinset)
      (fun a ha => h a (List.mem_cons_of_mem album ha))]
    have : albumIdsD search innerFuel album = (l.filterMap MediaItem.id?).toFinset := by
      simp [albumIdsD, searchChain, hl2]
    simp [unionIds, Finset.union_assoc, this]

/-- The outer loop of get_album_item_ids collects the union of the member
ids of every album along the albums page chain. -/
theorem get_album_item_ids_loop_eq (alist : Option String → AlbumsPage)
    (search : String → Option String → MediaPage) (innerFuel : Nat) :
    ∀ (fuel : Nat) (tok : Option String) (acc : Finset String) (al : List Album),
    pageChain AlbumsPage.albums AlbumsPage.nextPageToken alist fuel tok = some al →
    (∀ a ∈ al, (searchChain search a.id innerFuel).isSome = true) →
    get_album_item_ids_loop alist search innerFuel fuel tok acc =
      some (acc ∪ unionIds search innerFuel al)
  | 0, _, _, _, h, _ => by simp [pageChain] at h
  | fuel+1, tok, acc, al, h, hs => by
    simp only [pageChain] at h
    simp only [get_album_item_ids_loop]
    by_cases hf : tokenFalsy (alist tok).nextPageToken
    · simp only [hf, if_true, Option.some_inj] at h
      subst h
      rw [albums_fold_eq search innerFuel (alist tok).albums acc hs]
      simp [hf]
    · simp only [hf, Bool.false_eq_true, if_false] at h
      cases hrest : pageChain AlbumsPage.albums AlbumsPage.nextPageToken alist fuel
          (alist tok).nextPageToken with
      | none => rw [hrest] at h; exact absurd h (by simp)
      | some rest =>
        rw [hrest] at h
        simp only [Option.some_inj] at h
        subst h
        have hs1 : ∀ a ∈ (alist tok).albums,
            (searchChain search a.id innerFuel).isSome = true :=
          fun a ha => hs a (List.mem_append_left rest ha)
        have hs2 : ∀ a ∈ rest, (searchChain search a.id innerFuel).isSome = true :=
          fun a ha => hs a (List.mem_append_right (alist tok).albums ha)
        rw [albums_fold_eq search innerFuel (alist tok).albums acc hs1]
        simp only [hf, Bool.false_eq_true, if_false]
        rw [get_album_item_ids_loop_eq alist search innerFuel fuel (alist tok).nextPageToken
          (acc ∪ unionIds search innerFuel (alist tok).albums) rest hrest hs2]
        rw [unionIds_append, Finset.union_assoc]

/-- Membership in the collected union: an id is collected iff some album
of the list has a traversed member item carrying that id. -/
theorem mem_unionIds (search : String → Option String → MediaPage)
    (innerFuel : Nat) :
    ∀ (al : List Album) (x : String),
    x ∈ unionIds search innerFuel al ↔
      ∃ a ∈ al, ∃ item ∈ (searchChain search a.id innerFuel).getD [],
        item.id? = some x
  | [], x => by simp [unionIds]
  | a :: rest, x => by
    simp only [unionIds, List.foldr_cons, Finset.mem_union]
    rw [show rest.foldr (fun a t => albumIdsD search innerFuel a ∪ t) ∅ =
        unionIds search innerFuel rest from rfl]
    rw [mem_unionIds search innerFuel rest x]
    simp only [albumIdsD, List.mem_toFinset, List.mem_filterMap, List.mem_cons]
    constructor
    · rintro (⟨item, hitem, hid⟩ | ⟨b, hb, item, hitem, hid⟩)
      · exact ⟨a, Or.inl rfl, item, hitem, hid⟩
      · exact ⟨b, Or.inr hb, item, hitem, hid⟩
    · rintro ⟨b, hb | hb, item, hitem, hid⟩
      · subst hb; exact Or.inl ⟨item, hitem, hid⟩
      · exact Or.inr ⟨b, hb, item, hitem, hid⟩

/-- The collected union is no larger than the total number of member
items traversed across all albums. -/
theorem unionIds_card_le (search : String → Option String → MediaPage)
    (innerFuel : Nat) :
    ∀ (al : List Album),
    (unionIds search innerFuel al).card ≤
      (al.map (fun a => ((searchChain search a.id innerFuel).getD []).length)).sum
  | [] => by simp [unionIds]
  | a :: rest => by
    simp only [unionIds, List.foldr_cons, List.map_cons, List.sum_cons]
    refine le_trans (Finset.card_union_le _ _) (Nat.add_le_add ?_ ?_)
    · exact le_trans (List.toFinset_card_le _) (List.length_filterMap_le _ _)
    · exact unionIds_card_le search innerFuel rest

/-- When every photo of the list carries an id, the membership
comprehension raises no error and is an ordinary filter. -/
theorem filter_no_album_eq (ids : Finset String) :
    ∀ (l : List MediaItem), (∀ p ∈ l, p.id?.isSome = true) →
    filter_no_album ids l = some (l.filter (notInAlbum ids))
  | [], _ => rfl
  | p :: rest, h => by
    have hp := h p (List.mem_cons_self p rest)
    obtain ⟨i, hi⟩ := Option.isSome_iff_exists.mp hp
    simp only [filter_no_album, hi]
    rw [filter_no_album_eq ids rest (fun q hq => h q (List.mem_cons_of_mem p hq))]
    by_cases hmem : i ∈ ids
    · simp [hmem, List.filter_cons, notInAlbum, hi]
    · simp [hmem, List.filter_cons, notInAlbum, hi]

/-- When some photo of the list lacks an id, the membership comprehension
raises: the unguarded photo['id'] access is evaluated for every element,
so one id-less photo anywhere makes the whole comprehension fail. -/
theorem filter_no_album_none (ids : Finset String) :
    ∀ (l : List MediaItem), (∃ p ∈ l, p.id? = none) →
    filter_no_album ids l = none
  | [], h => by simp at h
  | p :: rest, h => by
    simp only [filter_no_album]
    cases hq : p.id? with
    | none => rfl
    | some i =>
      obtain ⟨q, hqmem, hqnone⟩ := h
      cases List.mem_cons.mp hqmem with
      | inl he => subst he; rw [hq] at hqnone; cases hqnone
      | inr he => rw [filter_no_album_none ids rest ⟨q, he, hqnone⟩]

/-- Every photo surviving the membership comprehension carries an id. -/
theorem filter_no_album_ids (ids : Finset String) :
    ∀ (l r : List MediaItem), filter_no_album ids l = some r →
    ∀ p ∈ r, p.id?.isSome = true
  | [], r, h => by
    simp only [filter_no_album, Option.some_inj] at h
    subst h; intro p hp; cases hp
  | q :: rest, r, h => by
    simp only [filter_no_album] at h
    cases hq : q.id? with
    | none => rw [hq] at h; cases h
    | some i =>
      rw [hq] at h
      cases htail : filter_no_album ids rest with
      | none => rw [htail] at h; cases h
      | some tail =>
        rw [htail] at h
        simp only [Option.some_inj] at h
        subst h
        intro p hp
        have htl := filter_no_album_ids ids rest tail htail
        by_cases hmem : i ∈ ids
        · rw [if_pos hmem] at hp; exact htl p hp
        · rw [if_neg hmem] at hp
          cases List.mem_cons.mp hp with
          | inl he => subst he; simp [hq]
          | inr he => exact htl p he

/-- When every photo of the list carries an id, the id-extraction
comprehension succeeds and returns those ids in order. -/
theorem ids_of_eq :
    ∀ (l : List MediaItem), (∀ p ∈ l, p.id?.isSome = true) →
    ids_of l = some (l.filterMap MediaItem.id?)
  | [], _ => rfl
  | p :: rest, h => by
    have hp := h p (List.mem_cons_self p rest)
    obtain ⟨i, hi⟩ := Option.isSome_iff_exists.mp hp
    simp only [ids_of, hi]
    rw [ids_of_eq rest (fun q hq => h q (List.mem_cons_of_mem p hq))]
    simp [List.filterMap_cons, hi]

/-- A Python slice l[:n] only contains elements of l. -/
theorem pySliceTo_subset {α : Type} (l : List α) (n : Int) :
    pySliceTo l n ⊆ l := by
  unfold pySliceTo
  by_cases h : 0 ≤ n
  · rw [if_pos h]; exact List.take_subset _ _
  · rw [if_neg h]; exact List.take_subset _ _

/-- The validation loop keeps exactly the ids passing validPred, in
order, and logs one event per candidate, in order. -/
theorem validate_ids_eq (mediaGet : String → Except String (Option MediaItem)) :
    ∀ (ids : List String),
    validate_ids mediaGet ids =
      (ids.filter (validPred mediaGet),
       ids.map (fun i => (validate_one mediaGet i).2))
  | [] => rfl
  | i :: rest => by
    simp only [validate_ids, validate_ids_eq mediaGet rest, List.filter_cons,
      List.map_cons]
    cases hi : mediaGet i with
    | error e => simp [validate_one, validPred, hi]
    | ok v =>
      cases v with
      | none => simp [validate_one, validPred, hi]
      | some item => simp [validate_one, validPred, hi]

/-- The first component of get_and_move_items_no_album is exactly the
result of get_items_no_album: the mutation phases never change, and never
prevent, the returned candidate batch. -/
theorem map_fst_get_and_move (svc : Service) (album_id : String)
    (fuelP innerFuel outerFuel : Nat) (batch_size : Int) :
    (get_and_move_items_no_album svc album_id fuelP innerFuel outerFuel batch_size).map
        Prod.fst =
      get_items_no_album svc fuelP innerFuel outerFuel batch_size := by
  unfold get_and_move_items_no_album get_items_no_album
  cases hp : get_all_photos svc fuelP with
  | none => rfl
  | some all_photos =>
    cases hi : get_album_item_ids svc innerFuel outerFuel with
    | none => rfl
    | some album_item_ids =>
      cases hf : filter_no_album album_item_ids all_photos with
      | none => simp only [hf]; rfl
      | some no_album_photos =>
        simp only [hf]
        by_cases he : pySliceTo no_album_photos batch_size = []
        · simp [he]
        · have hall : ∀ p ∈ pySliceTo no_album_photos batch_size, p.id?.isSome = true :=
            fun p hmem =>
              filter_no_album_ids album_item_ids all_photos no_album_photos hf p
                (pySliceTo_subset no_album_photos batch_size hmem)
          simp [he, ids_of_eq (pySliceTo no_album_photos batch_size) hall]

/-- get_items_no_album depends on the service only through the three
listing capabilities (photo listing, albums listing, in-album search). -/
theorem get_items_no_album_congr (svc svc2 : Service)
    (h1 : svc2.mediaList = svc.mediaList) (h2 : svc2.albumsList = svc.albumsList)
    (h3 : svc2.mediaSearch = svc.mediaSearch)
    (fuelP innerFuel outerFuel : Nat) (batch_size : Int) :
    get_items_no_album svc2 fuelP innerFuel outerFuel batch_size =
      get_items_no_album svc fuelP innerFuel outerFuel batch_size := by
  unfold get_items_no_album get_all_photos get_album_item_ids
  rw [h1, h2, h3]

/-- The find_album loop returns the first title match of the traversed
albums chain, and an explicit none when the chain is exhausted. -/
theorem find_album_loop_eq (alistEx : Option String → AlbumsPage)
    (album_name : String) :
    ∀ (fuel : Nat) (tok : Option String) (al : List Album),
    pageChain AlbumsPage.albums AlbumsPage.nextPageToken alistEx fuel tok = some al →
    find_album_loop alistEx album_name fuel tok =
      some (al.find? (fun a => a.title == album_name))
  | 0, _, _, h => by simp [pageChain] at h
  | fuel+1, tok, al, h => by
    simp only [pageChain] at h
    simp only [find_album_loop]
    by_cases hf : tokenFalsy (alistEx tok).nextPageToken
    · simp only [hf, if_true, Option.some_inj] at h
      subst h
      cases hfind : (alistEx tok).albums.find? (fun a => a.title == album_name) with
      | none => simp [hf, hfind]
      | some a => simp [hfind]
    · simp only [hf, Bool.false_eq_true, if_false] at h
      cases hrest : pageChain AlbumsPage.albums AlbumsPage.nextPageToken alistEx fuel
          (alistEx tok).nextPageToken with
      | none => rw [hrest] at h; exact absurd h (by simp)
      | some rest =>
        rw [hrest] at h
        simp only [Option.some_inj] at h
        subst h
        rw [List.find?_append]
        cases hfind : (alistEx tok).albums.find? (fun a => a.title == album_name) with
        | none =>
          simp only [hfind, Option.none_or, hf, Bool.false_eq_true, if_false]
          exact find_album_loop_eq alistEx album_name fuel (alistEx tok).nextPageToken
            rest hrest
        | some a => simp [hfind]

/-- When the albums listing's response does not depend on the call
counter, the double-fetch collector agrees with the single-fetch one. -/
theorem counted_loop_eq_single (csvc : CountedService)
    (hconst : ∀ k k2 t, csvc.albumsListAt k t = csvc.albumsListAt k2 t)
    (innerFuel : Nat) :
    ∀ (fuel k k2 : Nat) (tok : Option String) (acc : Finset String),
    get_album_item_ids_counted_loop csvc innerFuel fuel k tok acc =
      get_album_item_ids_single_loop csvc innerFuel fuel k2 tok acc
  | 0, _, _, _, _ => rfl
  | fuel+1, k, k2, tok, acc => by
    simp only [get_album_item_ids_counted_loop, get_album_item_ids_single_loop]
    rw [hconst k k2 tok, hconst (k+1) k2 tok]
    cases albums_fold csvc.mediaSearch innerFuel (csvc.albumsListAt k2 tok).albums acc with
    | none => rfl
    | some acc2 =>
      by_cases hf : tokenFalsy (csvc.albumsListAt k2 tok).nextPageToken
      · simp [hf]
      · simp only [hf, Bool.false_eq_true, if_false]
        exact counted_loop_eq_single csvc hconst innerFuel fuel (k+2) (k2+1)
          (csvc.albumsListAt k2 tok).nextPageToken acc2

/-- Reading a pure service through the call-counted collector gives back
the loop of get_album_item_ids. -/
theorem counted_loop_eq_pure (svc : Service) (innerFuel : Nat) :
    ∀ (fuel k : Nat) (tok : Option String) (acc : Finset String),
    get_album_item_ids_counted_loop
        ⟨fun _ t => svc.albumsList t, svc.mediaSearch⟩ innerFuel fuel k tok acc =
      get_album_item_ids_loop svc.albumsList svc.mediaSearch innerFuel fuel tok acc
  | 0, _, _, _ => rfl
  | fuel+1, k, tok, acc => by
    simp only [get_album_item_ids_counted_loop, get_album_item_ids_loop]
    cases albums_fold svc.mediaSearch innerFuel (svc.albumsList tok).albums acc with
    | none => rfl
    | some acc2 =>
      by_cases hf : tokenFalsy (svc.albumsList tok).nextPageToken
      · simp [hf]
      · simp only [hf, Bool.false_eq_true, if_false]
        exact counted_loop_eq_pure svc innerFuel fuel (k+2) (svc.albumsList tok).nextPageToken acc2

/-! ## The claims -/

/-- Claim C1 counterexample: a library state inside the claim's
quantifier — the photo listing returns the id-less image item, the
album-member set is the (empty) set the collector computes, and
batch_size = 5 ≥ 0 — on which get_items_no_album does not return the
filtered, truncated photo list: the unguarded photo['id'] access at
line 108 raises, so the call produces no result at all. -/
theorem claim_C1_counterexample :
    get_all_photos svcNoId 1 = some [itemNoId]
    ∧ get_album_item_ids svcNoId 1 1 = some ∅
    ∧ (0 : Int) ≤ 5
    ∧ get_items_no_album svcNoId 1 1 1 5 = none :=
  ⟨rfl, rfl, by decide, rfl⟩

/-- Claim C1 (amended): for every library state and every batch_size ≥ 0:
if every photo returned by the paginated listing carries an id,
get_items_no_album returns exactly the photos whose id is not in the
album-member id set, in discovery order, truncated to the first
batch_size entries (no returned photo's id is in the set, the result has
length ≤ batch_size, and when batch_size covers all orphans the result is
all orphans in discovery order); if instead some listed photo lacks an
id, the unguarded photo['id'] access makes the call fail with no result
rather than return that list. -/
theorem claim_C1 (svc : Service) (fuelP innerFuel outerFuel : Nat) (batch_size : Int)
    (all_photos : List MediaItem) (album_item_ids : Finset String)
    (hp : get_all_photos svc fuelP = some all_photos)
    (hi : get_album_item_ids svc innerFuel outerFuel = some album_item_ids)
    (hb : 0 ≤ batch_size) :
    ((∀ p ∈ all_photos, p.id?.isSome = true) →
      get_items_no_album svc fuelP innerFuel outerFuel batch_size =
        some ((all_photos.filter (notInAlbum album_item_ids)).take batch_size.toNat)
      ∧ (∀ p ∈ (all_photos.filter (notInAlbum album_item_ids)).take batch_size.toNat,
          ∀ i, p.id? = some i → i ∉ album_item_ids)
      ∧ ((all_photos.filter (notInAlbum album_item_ids)).take batch_size.toNat).length
          ≤ batch_size.toNat
      ∧ ((all_photos.filter (notInAlbum album_item_ids)).length ≤ batch_size.toNat →
          (all_photos.filter (notInAlbum album_item_ids)).take batch_size.toNat =
            all_photos.filter (notInAlbum album_item_ids)))
    ∧ ((∃ p ∈ all_photos, p.id? = none) →
      get_items_no_album svc fuelP innerFuel outerFuel batch_size = none) := by
  constructor
  · intro hids
    have hfilter := filter_no_album_eq album_item_ids all_photos hids
    refine ⟨?_, ?_, List.length_take_le _ _, fun hle => List.take_of_length_le hle⟩
    · simp only [get_items_no_album, hp, hi, hfilter]
      simp [pySliceTo, hb]
    · intro p hmem i hip
      have hpf : notInAlbum album_item_ids p = true :=
        List.of_mem_filter (List.take_subset _ _ hmem)
      simpa [notInAlbum, hip] using hpf
  · intro hex
    simp only [get_items_no_album, hp, hi,
      filter_no_album_none album_item_ids all_photos hex]

theorem claim_C1_witness :
    ((∀ p ∈ [p1, p2, p3, p4], p.id?.isSome = true) →
      get_items_no_album svcOrphans 1 1 1 2 =
        some (([p1, p2, p3, p4].filter (notInAlbum {"id2"})).take (2 : Int).toNat)
      ∧ (∀ p ∈ ([p1, p2, p3, p4].filter (notInAlbum {"id2"})).take (2 : Int).toNat,
          ∀ i, p.id? = some i → i ∉ ({"id2"} : Finset String))
      ∧ (([p1, p2, p3, p4].filter (notInAlbum {"id2"})).take (2 : Int).toNat).length
          ≤ (2 : Int).toNat
      ∧ (([p1, p2, p3, p4].filter (notInAlbum {"id2"})).length ≤ (2 : Int).toNat →
          ([p1, p2, p3, p4].filter (notInAlbum {"id2"})).take (2 : Int).toNat =
            [p1, p2, p3, p4].filter (notInAlbum {"id2"})))
    ∧ ((∃ p ∈ [p1, p2, p3, p4], p.id? = none) →
      get_items_no_album svcOrphans 1 1 1 2 = none) :=
  claim_C1 svcOrphans 1 1 1 2 [p1, p2, p3, p4] {"id2"} (by rfl) (by rfl) (by decide)

/-- Claim C2 counterexample: the page filter of get_all_photos does not
check for an id, so an item that has an image mime type and a filename
but no id appears in the output, contradicting the claim that every
output photo has an id. -/
theorem claim_C2_counterexample :
    get_all_photos svcNoId 1 = some [itemNoId] ∧ itemNoId.id? = none :=
  ⟨rfl, rfl⟩

/-- Claim C2 (amended): every page item lacking an image-prefixed mime
type or lacking a filename is excluded from get_all_photos's output, and
such items are silently dropped rather than causing an error; every photo
in the output has an image-prefixed mimeType and a filename.  Presence of
an id is NOT checked, so id-less items are not excluded. -/
theorem claim_C2_amended (svc : Service) (fuel : Nat) (raw : List MediaItem)
    (h : mediaChain svc.mediaList fuel = some raw) :
    get_all_photos svc fuel = some (raw.filter photoFilter)
    ∧ (∀ p ∈ raw.filter photoFilter,
        (∃ m, p.mimeType? = some m ∧ pyStartsWith m "image/" = true)
        ∧ p.filename?.isSome = true)
    ∧ (∀ p, photoFilter p = false → p ∉ raw.filter photoFilter) := by
  refine ⟨?_, ?_, ?_⟩
  · rw [get_all_photos_eq, h]; rfl
  · intro p hp
    have hpf : photoFilter p = true := List.of_mem_filter hp
    unfold photoFilter at hpf
    cases hm : p.mimeType? with
    | none => rw [hm] at hpf; cases hpf
    | some m =>
      rw [hm] at hpf
      have := Bool.and_eq_true_iff.mp hpf
      exact ⟨⟨m, rfl, this.1⟩, this.2⟩
  · intro p hfalse hmem
    have := List.of_mem_filter hmem
    rw [hfalse] at this
    cases this

theorem claim_C2_amended_witness :
    get_all_photos svcMixed 1 = some ([p1, itemNoName, itemVideo].filter photoFilter)
    ∧ (∀ p ∈ [p1, itemNoName, itemVideo].filter photoFilter,
        (∃ m, p.mimeType? = some m ∧ pyStartsWith m "image/" = true)
        ∧ p.filename?.isSome = true)
    ∧ (∀ p, photoFilter p = false → p ∉ [p1, itemNoName, itemVideo].filter photoFilter) :=
  claim_C2_amended svcMixed 1 [p1, itemNoName, itemVideo] (by rfl)

/-- Claim C3 counterexample: with three orphan photos and
batch_size = -1, Python's slice no_album_photos[:-1] keeps the first two
orphans, so the result of get_items_no_album is not empty although
batch_size ≤ 0. -/
theorem claim_C3_counterexample :
    get_items_no_album svcOrphans 1 1 1 (-1) = some [p1, p3]
    ∧ (-1 : Int) ≤ 0 ∧ ([p1, p3] : List MediaItem) ≠ [] :=
  ⟨rfl, by decide, by decide⟩

/-- Claim C3 (amended): with batch_size = 0 the result is empty; with
batch_size < 0 the result is the Python slice dropping the last
|batch_size| orphans (hence empty only when the orphan count is at most
|batch_size|); and for every batch_size, if fewer orphans exist than
batch_size, all of them are returned. -/
theorem claim_C3_amended (svc : Service) (fuelP innerFuel outerFuel : Nat)
    (batch_size : Int) (all_photos : List MediaItem) (album_item_ids : Finset String)
    (no_album_photos : List MediaItem)
    (hp : get_all_photos svc fuelP = some all_photos)
    (hi : get_album_item_ids svc innerFuel outerFuel = some album_item_ids)
    (hf : filter_no_album album_item_ids all_photos = some no_album_photos) :
    get_items_no_album svc fuelP innerFuel outerFuel batch_size =
      some (pySliceTo no_album_photos batch_size)
    ∧ (batch_size = 0 → pySliceTo no_album_photos batch_size = [])
    ∧ (batch_size < 0 → pySliceTo no_album_photos batch_size =
        no_album_photos.take (no_album_photos.length - (-batch_size).toNat))
    ∧ ((no_album_photos.length : Int) < batch_size →
        pySliceTo no_album_photos batch_size = no_album_photos) := by
  refine ⟨by simp only [get_items_no_album, hp, hi, hf], ?_, ?_, ?_⟩
  · rintro rfl; simp [pySliceTo]
  · intro hneg
    unfold pySliceTo
    rw [if_neg (not_le.mpr hneg)]
  · intro hlt
    have hb : 0 ≤ batch_size := le_trans (Int.ofNat_nonneg _) (le_of_lt hlt)
    have hlen : no_album_photos.length ≤ batch_size.toNat :=
      le_of_lt (Int.lt_toNat.mpr hlt)
    unfold pySliceTo
    rw [if_pos hb]
    exact List.take_of_length_le hlen

theorem claim_C3_amended_witness :
    get_items_no_album svcOrphans 1 1 1 10 = some (pySliceTo [p1, p3, p4] 10)
    ∧ ((10 : Int) = 0 → pySliceTo [p1, p3, p4] 10 = [])
    ∧ ((10 : Int) < 0 → pySliceTo [p1, p3, p4] 10 =
        [p1, p3, p4].take ([p1, p3, p4].length - (-(10 : Int)).toNat))
    ∧ (([p1, p3, p4].length : Int) < 10 → pySliceTo [p1, p3, p4] 10 = [p1, p3, p4]) :=
  claim_C3_amended svcOrphans 1 1 1 10 [p1, p2, p3, p4] {"id2"} [p1, p3, p4]
    (by rfl) (by rfl) (by rfl)

/-- Claim C4: for every traversed sequence of albums (whose member
searches all terminate), get_album_item_ids returns a set whose size is at
most the sum of member counts across all albums, that contains exactly
the ids of member items carrying an id field (id-less entries are
skipped, not errored), and that is invariant under reordering of the
albums (any service presenting the same albums in another order with the
same per-album member chains collects the same set). -/
theorem claim_C4 (svc : Service) (innerFuel outerFuel : Nat) (al : List Album)
    (h1 : albumsChain svc.albumsList outerFuel = some al)
    (h2 : ∀ a ∈ al, (searchChain svc.mediaSearch a.id innerFuel).isSome = true) :
    get_album_item_ids svc innerFuel outerFuel =
      some (unionIds svc.mediaSearch innerFuel al)
    ∧ (unionIds svc.mediaSearch innerFuel al).card ≤
        (al.map (fun a => ((searchChain svc.mediaSearch a.id innerFuel).getD []).length)).sum
    ∧ (∀ x, x ∈ unionIds svc.mediaSearch innerFuel al ↔
        ∃ a ∈ al, ∃ item ∈ (searchChain svc.mediaSearch a.id innerFuel).getD [],
          item.id? = some x)
    ∧ (∀ (svc2 : Service) (innerFuel2 outerFuel2 : Nat) (al2 : List Album),
        albumsChain svc2.albumsList outerFuel2 = some al2 →
        al.Perm al2 →
        (∀ a ∈ al, searchChain svc2.mediaSearch a.id innerFuel2 =
          searchChain svc.mediaSearch a.id innerFuel) →
        get_album_item_ids svc2 innerFuel2 outerFuel2 =
          get_album_item_ids svc innerFuel outerFuel) := by
  have hmain : get_album_item_ids svc innerFuel outerFuel =
      some (unionIds svc.mediaSearch innerFuel al) := by
    unfold get_album_item_ids
    rw [get_album_item_ids_loop_eq svc.albumsList svc.mediaSearch innerFuel outerFuel
      none ∅ al h1 h2, Finset.empty_union]
  refine ⟨hmain, unionIds_card_le _ _ _, mem_unionIds _ _ _, ?_⟩
  intro svc2 innerFuel2 outerFuel2 al2 h1b hperm hagree
  have h2b : ∀ a ∈ al2, (searchChain svc2.mediaSearch a.id innerFuel2).isSome = true := by
    intro a ha
    have haal : a ∈ al := hperm.mem_iff.mpr ha
    rw [hagree a haal]
    exact h2 a haal
  have hmain2 : get_album_item_ids svc2 innerFuel2 outerFuel2 =
      some (unionIds svc2.mediaSearch innerFuel2 al2) := by
    unfold get_album_item_ids
    rw [get_album_item_ids_loop_eq svc2.albumsList svc2.mediaSearch innerFuel2 outerFuel2
      none ∅ al2 h1b h2b, Finset.empty_union]
  rw [hmain2, hmain, Option.some_inj]
  ext x
  rw [mem_unionIds, mem_unionIds]
  constructor
  · rintro ⟨a, ha2, item, hitem, hid⟩
    have haal : a ∈ al := hperm.mem_iff.mpr ha2
    rw [hagree a haal] at hitem
    exact ⟨a, haal, item, hitem, hid⟩
  · rintro ⟨a, ha, item, hitem, hid⟩
    refine ⟨a, hperm.mem_iff.mp ha, item, ?_, hid⟩
    rw [hagree a ha]
    exact hitem

theorem claim_C4_witness :
    get_album_item_ids svcOrphans 1 1 =
      some (unionIds svcOrphans.mediaSearch 1 [⟨"a1", "Holidays"⟩])
    ∧ (unionIds svcOrphans.mediaSearch 1 [⟨"a1", "Holidays"⟩]).card ≤
        ([⟨"a1", "Holidays"⟩].map (fun a : Album =>
          ((searchChain svcOrphans.mediaSearch a.id 1).getD []).length)).sum
    ∧ (∀ x, x ∈ unionIds svcOrphans.mediaSearch 1 [⟨"a1", "Holidays"⟩] ↔
        ∃ a ∈ [(⟨"a1", "Holidays"⟩ : Album)],
          ∃ item ∈ (searchChain svcOrphans.mediaSearch a.id 1).getD [],
            item.id? = some x)
    ∧ (∀ (svc2 : Service) (innerFuel2 outerFuel2 : Nat) (al2 : List Album),
        albumsChain svc2.albumsList outerFuel2 = some al2 →
        List.Perm [⟨"a1", "Holidays"⟩] al2 →
        (∀ a ∈ [(⟨"a1", "Holidays"⟩ : Album)],
          searchChain svc2.mediaSearch a.id innerFuel2 =
            searchChain svcOrphans.mediaSearch a.id 1) →
        get_album_item_ids svc2 innerFuel2 outerFuel2 =
          get_album_item_ids svcOrphans 1 1) :=
  claim_C4 svcOrphans 1 1 [⟨"a1", "Holidays"⟩] (by rfl) (by decide)

/-- Claim C5: in get_and_move_items_no_album, every candidate id receives
exactly one validation event in order (a failed or not-found lookup is
logged and processing continues), the valid ids are exactly those passing
validation, and every valid id receives its own independent batch-add
attempt (a move failure on one id is logged and does not prevent the
attempts for the others); no per-item failure makes the function abort. -/
theorem claim_C5 (svc : Service) (album_id : String)
    (fuelP innerFuel outerFuel : Nat) (batch_size : Int) (cs : List MediaItem)
    (hc : get_items_no_album svc fuelP innerFuel outerFuel batch_size = some cs)
    (hne : cs ≠ []) :
    ∃ cs_ids, ids_of cs = some cs_ids ∧
      get_and_move_items_no_album svc album_id fuelP innerFuel outerFuel batch_size =
        some (cs,
          cs_ids.map (fun i => (validate_one svc.mediaGet i).2) ++
          (if (cs_ids.filter (validPred svc.mediaGet)).isEmpty then [MoveEvent.noValidIds]
           else (cs_ids.filter (validPred svc.mediaGet)).map
             (move_one svc.batchAdd album_id))) := by
  unfold get_items_no_album at hc
  cases hp : get_all_photos svc fuelP with
  | none => rw [hp] at hc; cases hc
  | some all_photos =>
    rw [hp] at hc
    cases hi : get_album_item_ids svc innerFuel outerFuel with
    | none => rw [hi] at hc; cases hc
    | some album_item_ids =>
      rw [hi] at hc
      have hc2 : (match filter_no_album album_item_ids all_photos with
          | none => none
          | some no_album_photos => some (pySliceTo no_album_photos batch_size)) =
            some cs := hc
      cases hf : filter_no_album album_item_ids all_photos with
      | none => rw [hf] at hc2; cases hc2
      | some no_album_photos =>
        rw [hf] at hc2
        simp only [Option.some_inj] at hc2
        subst hc2
        have hall : ∀ p ∈ pySliceTo no_album_photos batch_size, p.id?.isSome = true :=
          fun p hmem =>
            filter_no_album_ids album_item_ids all_photos no_album_photos hf p
              (pySliceTo_subset no_album_photos batch_size hmem)
        refine ⟨_, ids_of_eq _ hall, ?_⟩
        simp only [get_and_move_items_no_album, hp, hi, hf]
        rw [if_neg (by simpa using hne)]
        rw [ids_of_eq _ hall]
        simp [validate_ids_eq, move_ids]
        rw [validate_ids_eq]

theorem claim_C5_witness :
    ∃ cs_ids, ids_of [p1, p3, p4] = some cs_ids ∧
      get_and_move_items_no_album svcOrphans "alb" 1 1 1 10 =
        some ([p1, p3, p4],
          cs_ids.map (fun i => (validate_one svcOrphans.mediaGet i).2) ++
          (if (cs_ids.filter (validPred svcOrphans.mediaGet)).isEmpty
           then [MoveEvent.noValidIds]
           else (cs_ids.filter (validPred svcOrphans.mediaGet)).map
             (move_one svcOrphans.batchAdd "alb"))) :=
  claim_C5 svcOrphans "alb" 1 1 1 10 [p1, p3, p4] (by rfl) (by decide)

/-- Claim C6: the sequence returned by get_and_move_items_no_album is the
full candidate batch computed from the three listing capabilities alone:
for any two services agreeing on the listings (but with arbitrary lookup
and batch-add outcomes), the returned sequence is the same, namely the
result of get_items_no_album. -/
theorem claim_C6 (svc svc2 : Service) (album_id : String)
    (fuelP innerFuel outerFuel : Nat) (batch_size : Int)
    (h1 : svc2.mediaList = svc.mediaList) (h2 : svc2.albumsList = svc.albumsList)
    (h3 : svc2.mediaSearch = svc.mediaSearch) :
    (get_and_move_items_no_album svc2 album_id fuelP innerFuel outerFuel batch_size).map
        Prod.fst =
      get_items_no_album svc fuelP innerFuel outerFuel batch_size := by
  rw [map_fst_get_and_move,
    get_items_no_album_congr svc svc2 h1 h2 h3]

theorem claim_C6_witness :
    (get_and_move_items_no_album svcOrphans2 "alb" 1 1 1 10).map Prod.fst =
      get_items_no_album svcOrphans 1 1 1 10 :=
  claim_C6 svcOrphans svcOrphans2 "alb" 1 1 1 10 rfl rfl rfl

/-- Claim C7: for every album id, get_album_by_id returns the album of a
successful direct lookup, and converts any raised error into an explicit
absent result (None) instead of propagating it: it is exactly the
option-view of the lookup's exception-or-value result. -/
theorem claim_C7 (svc : Service) (album_id : String) :
    get_album_by_id svc album_id = (svc.albumsGet album_id).toOption := by
  unfold get_album_by_id
  cases svc.albumsGet album_id <;> rfl

/-- Claim C8: find_album returns the first album of the traversed albums
chain whose title is exactly (case-sensitively) equal to the requested
name, and an explicit not-found result (None) once all pages are
exhausted; with duplicate titles the first in listing order wins. -/
theorem claim_C8 (svc : Service) (album_name : String) (fuel : Nat)
    (al : List Album)
    (h : albumsChain svc.albumsListEx fuel = some al) :
    find_album svc album_name fuel =
      some (al.find? (fun a => a.title == album_name)) :=
  find_album_loop_eq svc.albumsListEx album_name fuel none al h

theorem claim_C8_witness :
    find_album svcFind "Vacation" 2 =
      some (([⟨"b1", "Trip"⟩, ⟨"v1", "Vacation"⟩, ⟨"v2", "Vacation"⟩] : List Album).find?
        (fun a => a.title == "Vacation")) :=
  claim_C8 svcFind "Vacation" 2 [⟨"b1", "Trip"⟩, ⟨"v1", "Vacation"⟩, ⟨"v2", "Vacation"⟩]
    (by rfl)

/-- Claim C9: the sequence returned by get_and_move_items_no_album equals
the sequence returned by get_items_no_album with the same fuels and
batch size, and it does not depend on the target album id. -/
theorem claim_C9 (svc : Service) (album_id : String)
    (fuelP innerFuel outerFuel : Nat) (batch_size : Int) :
    (get_and_move_items_no_album svc album_id fuelP innerFuel outerFuel batch_size).map
        Prod.fst =
      get_items_no_album svc fuelP innerFuel outerFuel batch_size
    ∧ ∀ album_id2,
      (get_and_move_items_no_album svc album_id2 fuelP innerFuel outerFuel batch_size).map
          Prod.fst =
        (get_and_move_items_no_album svc album_id fuelP innerFuel outerFuel batch_size).map
          Prod.fst :=
  ⟨map_fst_get_and_move svc album_id fuelP innerFuel outerFuel batch_size,
   fun album_id2 => by
    rw [map_fst_get_and_move, map_fst_get_and_move]⟩

/-- Claim C10: get_album_item_ids issues the albums listing request twice
per outer page with the same token (call-counted model); when the service
answers both identically the collected set equals that of a single-fetch
collector (and the call-counted reading of a pure service is exactly the
loop of get_album_item_ids), but when the two responses differ the
collectors can disagree: on divergeSvc the double-fetch run skips an
album page. -/
theorem claim_C10 :
    (∀ (csvc : CountedService),
      (∀ k k2 t, csvc.albumsListAt k t = csvc.albumsListAt k2 t) →
      ∀ (innerFuel fuel k k2 : Nat) (tok : Option String) (acc : Finset String),
      get_album_item_ids_counted_loop csvc innerFuel fuel k tok acc =
        get_album_item_ids_single_loop csvc innerFuel fuel k2 tok acc)
    ∧ (∀ (svc : Service) (innerFuel fuel k : Nat) (tok : Option String)
        (acc : Finset String),
      get_album_item_ids_counted_loop ⟨fun _ t => svc.albumsList t, svc.mediaSearch⟩
          innerFuel fuel k tok acc =
        get_album_item_ids_loop svc.albumsList svc.mediaSearch innerFuel fuel tok acc)
    ∧ get_album_item_ids_counted_loop divergeSvc 1 2 0 none ∅ ≠
        get_album_item_ids_single_loop divergeSvc 1 2 0 none ∅ :=
  ⟨fun csvc h innerFuel fuel k k2 tok acc =>
      counted_loop_eq_single csvc h innerFuel fuel k k2 tok acc,
   fun svc innerFuel fuel k tok acc =>
      counted_loop_eq_pure svc innerFuel fuel k tok acc,
   by decide⟩

theorem claim_C10_witness :
    get_album_item_ids_counted_loop constCSvc 1 1 0 none ∅ =
      get_album_item_ids_single_loop constCSvc 1 1 5 none ∅ :=
  claim_C10.1 constCSvc (fun _ _ _ => rfl) 1 1 0 5 none ∅

end GPhotos
